import Mathlib

/-!
Shallow embedding of the rate-limited, cached, fallback-chaining
tool-invocation layer of the Agentic-Research-Assistant repository
(`src/tools.py` and the generic dispatch gate of `src/main.py`).

External effects are modelled as explicit inputs:
the DuckDuckGo search runner becomes an oracle `runner : Nat → SearchOutcome`
giving the outcome of its i-th invocation within one `run` call; the
Wikipedia lookup used by `fallback_search` becomes `wiki : WikiOutcome`;
`time.time()` becomes the explicit instants `t0 t1 : ℚ`; `random.uniform(1,3)`
becomes an oracle `jitter : Nat → ℚ`; `time.sleep` is not performed but its
requested durations are recorded in the output.  The process-wide mutable
state (`_search_cache` and `RateLimitedSearchTool._last_search_time`) is
threaded explicitly through `SearchState`.
-/

set_option maxRecDepth 8192

/-- Python's `str.split()` with no argument, as used at `tools.py` line 51:
split on runs of whitespace, discarding empty fragments.  `acc` holds the
characters of the current word, reversed. -/
def splitWordsAux : List Char → List Char → List String
  | [], [] => []
  | [], acc => [String.mk acc.reverse]
  | c :: cs, acc =>
    if c.isWhitespace then
      (if acc.isEmpty then splitWordsAux cs [] else String.mk acc.reverse :: splitWordsAux cs [])
    else
      splitWordsAux cs (c :: acc)

/-- The word list of a query, i.e. Python's `query.split()`. -/
def pyWords (s : String) : List String := splitWordsAux s.data []

/-- Python's `str.lower()` (the queries compared against the filler-word
list are ASCII, where `Char.toLower` agrees with Python). -/
def lowerStr (s : String) : String := String.mk (s.data.map Char.toLower)

/-- The fixed stop-word list of `optimize_search_query` (`tools.py` line 48). -/
def filler_words : List String :=
  ["the", "a", "an", "and", "or", "but", "in", "on", "at", "to", "for", "with", "about", "is", "are"]

/-- The word filter of `tools.py` line 53: keep `w` when `len(w) > 2` and
`w.lower() not in filler_words`. -/
def isMeaningful (w : String) : Bool :=
  decide (2 < w.length) && !(filler_words.contains (lowerStr w))

/-- Python's `" ".join` on a list of words (`tools.py` line 55). -/
def spaceJoin : List String → String
  | [] => ""
  | [w] => w
  | w :: ws => w ++ " " ++ spaceJoin ws

/-- `optimize_search_query` of `tools.py` lines 45-58. -/
def optimize_search_query (query : String) : String :=
  let words := pyWords query
  if 8 < words.length then
    let important_words := words.filter isMeaningful
    if 3 < important_words.length then
      spaceJoin important_words
    else query
  else query

/-- Whether `a` occurs at the start of `b` (character lists). -/
def isPre : List Char → List Char → Bool
  | [], _ => true
  | _ :: _, [] => false
  | a :: as, b :: bs => a == b && isPre as bs

/-- Whether `needle` occurs somewhere in `haystack` (character lists). -/
def hasSub (needle : List Char) : List Char → Bool
  | [] => isPre needle []
  | c :: cs => isPre needle (c :: cs) || hasSub needle cs

/-- Python's `"Ratelimit" in str(e)` test of `tools.py` line 115. -/
def ratelimitIn (msg : String) : Bool := hasSub "Ratelimit".data msg.data

/-- Outcome of one invocation of the external Wikipedia lookup inside
`fallback_search`: a returned string, or a raised exception. -/
inductive WikiOutcome where
  | ok (result : String)
  | exc
deriving DecidableEq

/-- The Wikipedia-based reply of `fallback_search` (`tools.py` line 29). -/
def wikiFallbackMsg (r : String) : String :=
  "DuckDuckGo search is currently rate-limited. Using Wikipedia instead:\n\n" ++ r ++
    "\n\n(Note: This result is from Wikipedia rather than a web search. For more specific or recent information, please try again later.)"

/-- The templated suggestion reply of `fallback_search` (`tools.py` lines 34-42). -/
def rateLimitSuggestMsg (query : String) : String :=
  "🚫 Search is currently rate-limited. Here are some suggestions:\n\n" ++
    "1. **Be more specific** with your query\n" ++
    "2. **Use Wikipedia** instead for general knowledge\n" ++
    "3. **Try the WebScraper tool** if you know a specific website with relevant information\n" ++
    "4. **Wait a few minutes** before attempting another search\n\n" ++
    "Your query was: '" ++ query ++ "'\n\n" ++
    "This limitation is due to DuckDuckGo's rate limiting policy and not an issue with the research assistant itself."

/-- `fallback_search` of `tools.py` lines 22-42: the Wikipedia result is used
when the lookup did not raise and returned more than 100 characters
(`if wikipedia_result and len(wikipedia_result) > 100`); otherwise the
templated suggestion message is returned. -/
def fallback_search (wiki : WikiOutcome) (query : String) : String :=
  match wiki with
  | WikiOutcome.ok r => if 100 < r.length then wikiFallbackMsg r else rateLimitSuggestMsg query
  | WikiOutcome.exc => rateLimitSuggestMsg query

/-- Outcome of one invocation of `self.search_runner.run`: a result string,
a raised `DuckDuckGoSearchException` with message `msg`, or any other
raised exception with message `msg`. -/
inductive SearchOutcome where
  | ok (result : String)
  | ddgExc (msg : String)
  | otherExc (msg : String)
deriving DecidableEq

/-- Lookup in the model of the `_search_cache` dict: the most recent binding
of a key wins, matching Python dict assignment. -/
def cacheLookup : List (String × String) → String → Option String
  | [], _ => none
  | (k, v) :: rest, q => if k = q then some v else cacheLookup rest q

/-- `_search_cache[k] = v` (`tools.py` lines 111-112). -/
def cacheInsert (cache : List (String × String)) (k v : String) : List (String × String) :=
  (k, v) :: cache

/-- Result of the retry loop of `RateLimitedSearchTool.run` (`tools.py`
lines 106-124): the returned string, the cache after the loop, the attempt
indices at which `search_runner.run` was invoked (in order), the backoff
sleep durations requested between attempts, the argument `fallback_search`
was invoked with (if it was), and whether the primary call succeeded. -/
structure LoopOut where
  result : String
  cache : List (String × String)
  callIdxs : List Nat
  backoffs : List ℚ
  fallbackOn : Option String
  succeeded : Bool
deriving DecidableEq

/-- The `return fallback_search(query)` exit of the loop (`tools.py` line 122). -/
def fallbackLoopOut (wiki : WikiOutcome) (query : String)
    (cache : List (String × String)) (attempt : Nat) : LoopOut :=
  { result := fallback_search wiki query, cache := cache, callIdxs := [attempt],
    backoffs := [], fallbackOn := some query, succeeded := false }

/-- Prepend one rate-limited attempt (at index `attempt`, with backoff
duration `b` slept after it) in front of the trace of the remaining loop
iterations. -/
def consStep (attempt : Nat) (b : ℚ) (rest : LoopOut) : LoopOut :=
  { result := rest.result, cache := rest.cache, callIdxs := attempt :: rest.callIdxs,
    backoffs := b :: rest.backoffs, fallbackOn := rest.fallbackOn, succeeded := rest.succeeded }

/-- The retry loop of `RateLimitedSearchTool.run` (`tools.py` lines 106-124),
entered with `attempt = 0` and `retriesLeft = max_retries`; the source's
`attempt < self.max_retries` test is `0 < retriesLeft` here.  On success the
result is cached under both the raw and the optimized query when caching is
enabled (lines 110-112); on a `DuckDuckGoSearchException` whose message
contains "Ratelimit" with retries left, a backoff of
`initial_backoff * 3 ^ attempt + jitter attempt` is slept and the loop
retries (lines 115-119); any other `DuckDuckGoSearchException` exits through
`fallback_search` (line 122); any other exception returns the formatted
error string (line 124). -/
def retryLoop (initial_backoff : ℚ) (use_cache : Bool) (runner : Nat → SearchOutcome)
    (wiki : WikiOutcome) (jitter : Nat → ℚ) (query optq : String)
    (cache : List (String × String)) (attempt : Nat) (retriesLeft : Nat) : LoopOut :=
  match runner attempt, retriesLeft with
  | SearchOutcome.ok v, _ =>
    { result := v,
      cache := if use_cache then cacheInsert (cacheInsert cache query v) optq v else cache,
      callIdxs := [attempt], backoffs := [], fallbackOn := none, succeeded := true }
  | SearchOutcome.ddgExc m, r + 1 =>
    if ratelimitIn m then
      consStep attempt (initial_backoff * 3 ^ attempt + jitter attempt)
        (retryLoop initial_backoff use_cache runner wiki jitter query optq cache (attempt + 1) r)
    else fallbackLoopOut wiki query cache attempt
  | SearchOutcome.ddgExc _, 0 => fallbackLoopOut wiki query cache attempt
  | SearchOutcome.otherExc m, _ =>
    { result := "Unexpected search error: " ++ m, cache := cache,
      callIdxs := [attempt], backoffs := [], fallbackOn := none, succeeded := false }

/-- The process-wide mutable state read and written by
`RateLimitedSearchTool.run`: the `_search_cache` dict and the class variable
`_last_search_time` (initially `0`). -/
structure SearchState where
  cache : List (String × String)
  last_search_time : ℚ
deriving DecidableEq

/-- Everything one call of `RateLimitedSearchTool.run` produces: the returned
string, the updated shared state (`cache`, `last_search_time`), the rate-gate
sleep duration (`none` when no wait happened), and the retry-loop trace
fields as in `LoopOut`. -/
structure RunOutput where
  result : String
  cache : List (String × String)
  last_search_time : ℚ
  gate : Option ℚ
  callIdxs : List Nat
  backoffs : List ℚ
  fallbackOn : Option String
  succeeded : Bool
deriving DecidableEq

/-- `RateLimitedSearchTool._min_delay_between_searches` (`tools.py` line 67). -/
def min_delay_between_searches : ℚ := 5

/-- The `min_delay=2.0` the generic executor gate is constructed with
(`main.py` line 479). -/
def executor_min_delay : ℚ := 2

/-- `RateLimitedSearchTool.run` (`tools.py` lines 77-124).  `t0` is the
`time.time()` read at line 85, `t1` the one at line 104.  In source order:
the raw-query cache check (lines 80-82), the rate-gate wait (lines 84-91,
condition `elapsed < min_delay and last_search_time > 0`), the optimizer and
the optimized-query cache check which only happens when the optimized query
differs (lines 93-101), the unconditional `last_search_time` update
(line 104), then the retry loop. -/
def RateLimitedSearchTool.run (max_retries : Nat) (initial_backoff : ℚ) (use_cache : Bool)
    (min_delay : ℚ) (runner : Nat → SearchOutcome) (wiki : WikiOutcome) (jitter : Nat → ℚ)
    (t0 t1 : ℚ) (query : String) (st : SearchState) : RunOutput :=
  if use_cache = true ∧ (cacheLookup st.cache query).isSome = true then
    { result := (cacheLookup st.cache query).getD "", cache := st.cache,
      last_search_time := st.last_search_time, gate := none, callIdxs := [],
      backoffs := [], fallbackOn := none, succeeded := false }
  else
    let elapsed := t0 - st.last_search_time
    let gate : Option ℚ :=
      if elapsed < min_delay ∧ 0 < st.last_search_time then some (min_delay - elapsed) else none
    let optq := optimize_search_query query
    if use_cache = true ∧ optq ≠ query ∧ (cacheLookup st.cache optq).isSome = true then
      { result := (cacheLookup st.cache optq).getD "", cache := st.cache,
        last_search_time := st.last_search_time, gate := gate, callIdxs := [],
        backoffs := [], fallbackOn := none, succeeded := false }
    else
      let lo := retryLoop initial_backoff use_cache runner wiki jitter query optq st.cache 0 max_retries
      { result := lo.result, cache := lo.cache, last_search_time := t1, gate := gate,
        callIdxs := lo.callIdxs, backoffs := lo.backoffs, fallbackOn := lo.fallbackOn,
        succeeded := lo.succeeded }

/-- `RateLimitedAgentExecutor.invoke` (`main.py` lines 462-475), reduced to
its rate-gate effect: `t0` is the `time.time()` read at line 465, `t1` the
one at line 474; the first component is the requested sleep duration
(`none` when no wait happened), the second the updated `last_call_time`. -/
def RateLimitedAgentExecutor.invoke (min_delay t0 t1 last_call_time : ℚ) : Option ℚ × ℚ :=
  if t0 - last_call_time < min_delay ∧ 0 < last_call_time then
    (some (min_delay - (t0 - last_call_time)), t1)
  else
    (none, t1)

/-- First character shows a string is not of the form
`"Unexpected search error: " ++ m`. -/
def startsWithU (s : String) : Bool :=
  match s.data with
  | 'U' :: _ => true
  | _ => false

theorem retryLoop_ok (ib : ℚ) (uc : Bool) (runner : Nat → SearchOutcome) (wiki : WikiOutcome)
    (jitter : Nat → ℚ) (q o : String) (c : List (String × String)) (a r : Nat) (v : String)
    (h : runner a = SearchOutcome.ok v) :
    retryLoop ib uc runner wiki jitter q o c a r =
      { result := v, cache := if uc then cacheInsert (cacheInsert c q v) o v else c,
        callIdxs := [a], backoffs := [], fallbackOn := none, succeeded := true } := by
  rw [retryLoop.eq_def, h]

theorem retryLoop_retry (ib : ℚ) (uc : Bool) (runner : Nat → SearchOutcome) (wiki : WikiOutcome)
    (jitter : Nat → ℚ) (q o : String) (c : List (String × String)) (a r : Nat) (m : String)
    (h : runner a = SearchOutcome.ddgExc m) (hm : ratelimitIn m = true) :
    retryLoop ib uc runner wiki jitter q o c a (r + 1) =
      consStep a (ib * 3 ^ a + jitter a) (retryLoop ib uc runner wiki jitter q o c (a + 1) r) := by
  rw [retryLoop.eq_def, h]
  simp [hm]

theorem retryLoop_ddg_stop (ib : ℚ) (uc : Bool) (runner : Nat → SearchOutcome) (wiki : WikiOutcome)
    (jitter : Nat → ℚ) (q o : String) (c : List (String × String)) (a : Nat) (m : String)
    (h : runner a = SearchOutcome.ddgExc m) :
    retryLoop ib uc runner wiki jitter q o c a 0 = fallbackLoopOut wiki q c a := by
  rw [retryLoop.eq_def, h]

theorem retryLoop_ddg_norl (ib : ℚ) (uc : Bool) (runner : Nat → SearchOutcome) (wiki : WikiOutcome)
    (jitter : Nat → ℚ) (q o : String) (c : List (String × String)) (a r : Nat) (m : String)
    (h : runner a = SearchOutcome.ddgExc m) (hm : ratelimitIn m = false) :
    retryLoop ib uc runner wiki jitter q o c a r = fallbackLoopOut wiki q c a := by
  rw [retryLoop.eq_def, h]
  cases r <;> simp [hm]

theorem retryLoop_other (ib : ℚ) (uc : Bool) (runner : Nat → SearchOutcome) (wiki : WikiOutcome)
    (jitter : Nat → ℚ) (q o : String) (c : List (String × String)) (a r : Nat) (m : String)
    (h : runner a = SearchOutcome.otherExc m) :
    retryLoop ib uc runner wiki jitter q o c a r =
      { result := "Unexpected search error: " ++ m, cache := c,
        callIdxs := [a], backoffs := [], fallbackOn := none, succeeded := false } := by
  rw [retryLoop.eq_def, h]

theorem run_eq_of_cache_miss (mr : Nat) (ib : ℚ) (uc : Bool) (md : ℚ)
    (runner : Nat → SearchOutcome) (wiki : WikiOutcome) (jitter : Nat → ℚ) (t0 t1 : ℚ)
    (query : String) (st : SearchState)
    (h1 : cacheLookup st.cache query = none)
    (h2 : cacheLookup st.cache (optimize_search_query query) = none) :
    RateLimitedSearchTool.run mr ib uc md runner wiki jitter t0 t1 query st =
      { result := (retryLoop ib uc runner wiki jitter query (optimize_search_query query) st.cache 0 mr).result,
        cache := (retryLoop ib uc runner wiki jitter query (optimize_search_query query) st.cache 0 mr).cache,
        last_search_time := t1,
        gate := if t0 - st.last_search_time < md ∧ 0 < st.last_search_time
                then some (md - (t0 - st.last_search_time)) else none,
        callIdxs := (retryLoop ib uc runner wiki jitter query (optimize_search_query query) st.cache 0 mr).callIdxs,
        backoffs := (retryLoop ib uc runner wiki jitter query (optimize_search_query query) st.cache 0 mr).backoffs,
        fallbackOn := (retryLoop ib uc runner wiki jitter query (optimize_search_query query) st.cache 0 mr).fallbackOn,
        succeeded := (retryLoop ib uc runner wiki jitter query (optimize_search_query query) st.cache 0 mr).succeeded } := by
  simp [RateLimitedSearchTool.run, h1, h2]

theorem retryLoop_all_ratelimit (ib : ℚ) (uc : Bool) (runner : Nat → SearchOutcome)
    (wiki : WikiOutcome) (jitter : Nat → ℚ) (q o : String) (c : List (String × String))
    (hrl : ∀ i, ∃ m, runner i = SearchOutcome.ddgExc m ∧ ratelimitIn m = true) :
    ∀ r a, retryLoop ib uc runner wiki jitter q o c a r =
      { result := fallback_search wiki q, cache := c,
        callIdxs := List.range' a (r + 1),
        backoffs := (List.range' a r).map (fun i => ib * 3 ^ i + jitter i),
        fallbackOn := some q, succeeded := false } := by
  intro r
  induction r with
  | zero =>
    intro a
    obtain ⟨m, hm, hrm⟩ := hrl a
    rw [retryLoop_ddg_stop ib uc runner wiki jitter q o c a m hm]
    simp [fallbackLoopOut, List.range']
  | succ r ih =>
    intro a
    obtain ⟨m, hm, hrm⟩ := hrl a
    rw [retryLoop_retry ib uc runner wiki jitter q o c a r m hm hrm, ih (a + 1)]
    simp [consStep, List.range']

theorem retryLoop_ratelimit_then_ok (ib : ℚ) (uc : Bool) (runner : Nat → SearchOutcome)
    (wiki : WikiOutcome) (jitter : Nat → ℚ) (q o : String) (c : List (String × String))
    (v : String) :
    ∀ d a r, d ≤ r →
      (∀ j, j < d → ∃ m, runner (a + j) = SearchOutcome.ddgExc m ∧ ratelimitIn m = true) →
      runner (a + d) = SearchOutcome.ok v →
      retryLoop ib uc runner wiki jitter q o c a r =
        { result := v,
          cache := if uc then cacheInsert (cacheInsert c q v) o v else c,
          callIdxs := List.range' a (d + 1),
          backoffs := (List.range' a d).map (fun i => ib * 3 ^ i + jitter i),
          fallbackOn := none, succeeded := true } := by
  intro d
  induction d with
  | zero =>
    intro a r _ _ hok
    rw [retryLoop_ok ib uc runner wiki jitter q o c a r v (by simpa using hok)]
    simp [List.range']
  | succ d ih =>
    intro a r hdr hrl hok
    obtain ⟨r', rfl⟩ : ∃ r', r = r' + 1 := ⟨r - 1, by omega⟩
    obtain ⟨m, hm, hrm⟩ := by simpa using hrl 0 (Nat.succ_pos d)
    rw [retryLoop_retry ib uc runner wiki jitter q o c a r' m hm hrm]
    rw [ih (a + 1) r' (by omega)
      (fun j hj => by
        obtain ⟨m', hm', hrm'⟩ := hrl (j + 1) (by omega)
        exact ⟨m', by rw [show a + 1 + j = a + (j + 1) by omega]; exact hm', hrm'⟩)
      (by rw [show a + 1 + d = a + (d + 1) by omega]; exact hok)]
    simp [consStep, List.range']

theorem retryLoop_cache_spec (ib : ℚ) (uc : Bool) (runner : Nat → SearchOutcome)
    (wiki : WikiOutcome) (jitter : Nat → ℚ) (q o : String) (c : List (String × String)) :
    ∀ r a,
      ((retryLoop ib uc runner wiki jitter q o c a r).succeeded = true →
        (retryLoop ib uc runner wiki jitter q o c a r).cache =
          (if uc then cacheInsert (cacheInsert c q (retryLoop ib uc runner wiki jitter q o c a r).result)
              o (retryLoop ib uc runner wiki jitter q o c a r).result else c))
      ∧ ((retryLoop ib uc runner wiki jitter q o c a r).succeeded = false →
        (retryLoop ib uc runner wiki jitter q o c a r).cache = c)
      ∧ ((retryLoop ib uc runner wiki jitter q o c a r).fallbackOn ≠ none →
        (retryLoop ib uc runner wiki jitter q o c a r).succeeded = false)
      ∧ (retryLoop ib uc runner wiki jitter q o c a r).callIdxs.head? = some a := by
  intro r
  induction r with
  | zero =>
    intro a
    rcases h : runner a with v | m | m
    · rw [retryLoop_ok ib uc runner wiki jitter q o c a 0 v h]
      simp
    · rw [retryLoop_ddg_stop ib uc runner wiki jitter q o c a m h]
      simp [fallbackLoopOut]
    · rw [retryLoop_other ib uc runner wiki jitter q o c a 0 m h]
      simp
  | succ r ih =>
    intro a
    rcases h : runner a with v | m | m
    · rw [retryLoop_ok ib uc runner wiki jitter q o c a (r + 1) v h]
      simp
    · rcases hm : ratelimitIn m with hf | ht
      · rw [retryLoop_ddg_norl ib uc runner wiki jitter q o c a (r + 1) m h hm]
        simp [fallbackLoopOut]
      · rw [retryLoop_retry ib uc runner wiki jitter q o c a r m h hm]
        obtain ⟨ih1, ih2, ih3, _⟩ := ih (a + 1)
        refine ⟨fun hs => ?_, fun hs => ?_, fun hf => ?_, ?_⟩
        · simpa [consStep] using ih1 (by simpa [consStep] using hs)
        · simpa [consStep] using ih2 (by simpa [consStep] using hs)
        · simpa [consStep] using ih3 (by simpa [consStep] using hf)
        · simp [consStep]
    · rw [retryLoop_other ib uc runner wiki jitter q o c a (r + 1) m h]
      simp

theorem retryLoop_result_cases (ib : ℚ) (uc : Bool) (runner : Nat → SearchOutcome)
    (wiki : WikiOutcome) (jitter : Nat → ℚ) (q o : String) (c : List (String × String)) :
    ∀ r a,
      (∃ i v, runner i = SearchOutcome.ok v ∧ (retryLoop ib uc runner wiki jitter q o c a r).result = v)
      ∨ (retryLoop ib uc runner wiki jitter q o c a r).result = fallback_search wiki q
      ∨ (∃ m, (retryLoop ib uc runner wiki jitter q o c a r).result = "Unexpected search error: " ++ m) := by
  intro r
  induction r with
  | zero =>
    intro a
    rcases h : runner a with v | m | m
    · rw [retryLoop_ok ib uc runner wiki jitter q o c a 0 v h]
      exact Or.inl ⟨a, v, h, rfl⟩
    · rw [retryLoop_ddg_stop ib uc runner wiki jitter q o c a m h]
      exact Or.inr (Or.inl rfl)
    · rw [retryLoop_other ib uc runner wiki jitter q o c a 0 m h]
      exact Or.inr (Or.inr ⟨m, rfl⟩)
  | succ r ih =>
    intro a
    rcases h : runner a with v | m | m
    · rw [retryLoop_ok ib uc runner wiki jitter q o c a (r + 1) v h]
      exact Or.inl ⟨a, v, h, rfl⟩
    · rcases hm : ratelimitIn m with hf | ht
      · rw [retryLoop_ddg_norl ib uc runner wiki jitter q o c a (r + 1) m h hm]
        exact Or.inr (Or.inl rfl)
      · rw [retryLoop_retry ib uc runner wiki jitter q o c a r m h hm]
        rcases ih (a + 1) with ⟨i, v, hi, hr⟩ | hr | ⟨m', hr⟩
        · exact Or.inl ⟨i, v, hi, by simpa [consStep] using hr⟩
        · exact Or.inr (Or.inl (by simpa [consStep] using hr))
        · exact Or.inr (Or.inr ⟨m', by simpa [consStep] using hr⟩)
    · rw [retryLoop_other ib uc runner wiki jitter q o c a (r + 1) m h]
      exact Or.inr (Or.inr ⟨m, rfl⟩)

theorem cacheLookup_insert2_raw (c : List (String × String)) (q o v : String) :
    cacheLookup (cacheInsert (cacheInsert c q v) o v) q = some v := by
  by_cases h : o = q <;> simp [cacheInsert, cacheLookup, h]

theorem cacheLookup_insert2_opt (c : List (String × String)) (q o v : String) :
    cacheLookup (cacheInsert (cacheInsert c q v) o v) o = some v := by
  simp [cacheInsert, cacheLookup]

theorem run_cache_hit (mr : Nat) (ib : ℚ) (md : ℚ)
    (runner : Nat → SearchOutcome) (wiki : WikiOutcome) (jitter : Nat → ℚ) (t0 t1 : ℚ)
    (query : String) (st : SearchState) (v : String)
    (h : cacheLookup st.cache query = some v) :
    RateLimitedSearchTool.run mr ib true md runner wiki jitter t0 t1 query st =
      { result := v, cache := st.cache, last_search_time := st.last_search_time,
        gate := none, callIdxs := [], backoffs := [], fallbackOn := none,
        succeeded := false } := by
  simp [RateLimitedSearchTool.run, h]

theorem run_opt_hit (mr : Nat) (ib : ℚ) (md : ℚ)
    (runner : Nat → SearchOutcome) (wiki : WikiOutcome) (jitter : Nat → ℚ) (t0 t1 : ℚ)
    (query : String) (st : SearchState) (v : String)
    (h1 : cacheLookup st.cache query = none)
    (hne : optimize_search_query query ≠ query)
    (h2 : cacheLookup st.cache (optimize_search_query query) = some v) :
    RateLimitedSearchTool.run mr ib true md runner wiki jitter t0 t1 query st =
      { result := v, cache := st.cache, last_search_time := st.last_search_time,
        gate := if t0 - st.last_search_time < md ∧ 0 < st.last_search_time
                then some (md - (t0 - st.last_search_time)) else none,
        callIdxs := [], backoffs := [], fallbackOn := none, succeeded := false } := by
  simp [RateLimitedSearchTool.run, h1, h2, hne]

theorem run_succeeded_lookup (mr : Nat) (ib : ℚ) (md : ℚ)
    (runner : Nat → SearchOutcome) (wiki : WikiOutcome) (jitter : Nat → ℚ) (t0 t1 : ℚ)
    (query : String) (st : SearchState)
    (hs : (RateLimitedSearchTool.run mr ib true md runner wiki jitter t0 t1 query st).succeeded = true) :
    cacheLookup (RateLimitedSearchTool.run mr ib true md runner wiki jitter t0 t1 query st).cache query
        = some (RateLimitedSearchTool.run mr ib true md runner wiki jitter t0 t1 query st).result
    ∧ cacheLookup (RateLimitedSearchTool.run mr ib true md runner wiki jitter t0 t1 query st).cache
        (optimize_search_query query)
        = some (RateLimitedSearchTool.run mr ib true md runner wiki jitter t0 t1 query st).result := by
  rcases h1 : cacheLookup st.cache query with _ | v
  · rcases h2 : cacheLookup st.cache (optimize_search_query query) with _ | v
    · rw [run_eq_of_cache_miss mr ib true md runner wiki jitter t0 t1 query st h1 h2] at hs ⊢
      obtain ⟨c1, _, _, _⟩ := retryLoop_cache_spec ib true runner wiki jitter query
        (optimize_search_query query) st.cache mr 0
      simp only at hs
      rw [c1 hs]
      simp [cacheLookup_insert2_raw, cacheLookup_insert2_opt]
    · by_cases hne : optimize_search_query query = query
      · rw [hne] at h2
        rw [h1] at h2
        exact absurd h2 (by simp)
      · rw [run_opt_hit mr ib md runner wiki jitter t0 t1 query st v h1 hne h2] at hs
        simp at hs
  · rw [run_cache_hit mr ib md runner wiki jitter t0 t1 query st v h1] at hs
    simp at hs

theorem run_gate_never_set (mr : Nat) (ib : ℚ) (uc : Bool) (md : ℚ)
    (runner : Nat → SearchOutcome) (wiki : WikiOutcome) (jitter : Nat → ℚ) (t0 t1 : ℚ)
    (query : String) (st : SearchState)
    (hlast : st.last_search_time = 0) :
    (RateLimitedSearchTool.run mr ib uc md runner wiki jitter t0 t1 query st).gate = none := by
  unfold RateLimitedSearchTool.run
  split
  · rfl
  · simp only [hlast, lt_self_iff_false, and_false, if_false]
    split <;> rfl

theorem run_gate_wait (mr : Nat) (ib : ℚ) (uc : Bool) (md : ℚ)
    (runner : Nat → SearchOutcome) (wiki : WikiOutcome) (jitter : Nat → ℚ) (t0 t1 : ℚ)
    (query : String) (st : SearchState)
    (h1 : cacheLookup st.cache query = none)
    (hpos : 0 < st.last_search_time)
    (hlt : t0 - st.last_search_time < md) :
    (RateLimitedSearchTool.run mr ib uc md runner wiki jitter t0 t1 query st).gate
      = some (md - (t0 - st.last_search_time)) := by
  unfold RateLimitedSearchTool.run
  simp only [h1, Option.isSome_none, Bool.false_eq_true, and_false, if_false, hpos, hlt,
    and_self, if_true, true_and]
  split <;> rfl

theorem run_eq_uc_false (mr : Nat) (ib md : ℚ)
    (runner : Nat → SearchOutcome) (wiki : WikiOutcome) (jitter : Nat → ℚ) (t0 t1 : ℚ)
    (query : String) (st : SearchState) :
    RateLimitedSearchTool.run mr ib false md runner wiki jitter t0 t1 query st =
      { result := (retryLoop ib false runner wiki jitter query (optimize_search_query query) st.cache 0 mr).result,
        cache := (retryLoop ib false runner wiki jitter query (optimize_search_query query) st.cache 0 mr).cache,
        last_search_time := t1,
        gate := if t0 - st.last_search_time < md ∧ 0 < st.last_search_time
                then some (md - (t0 - st.last_search_time)) else none,
        callIdxs := (retryLoop ib false runner wiki jitter query (optimize_search_query query) st.cache 0 mr).callIdxs,
        backoffs := (retryLoop ib false runner wiki jitter query (optimize_search_query query) st.cache 0 mr).backoffs,
        fallbackOn := (retryLoop ib false runner wiki jitter query (optimize_search_query query) st.cache 0 mr).fallbackOn,
        succeeded := (retryLoop ib false runner wiki jitter query (optimize_search_query query) st.cache 0 mr).succeeded } := by
  simp [RateLimitedSearchTool.run]

/-- Claim C6: `optimize_search_query` removes the fixed stop-words and the
words of length at most 2 exactly when the query has more than 8 words,
returning the remaining words joined by single spaces when at least 4
meaningful words remain and the query unchanged otherwise; in particular the
one-word query "AI" is returned unchanged. -/
theorem claim_C6_optimizer :
    (∀ query : String,
      optimize_search_query query =
        if 8 < (pyWords query).length ∧ 3 < ((pyWords query).filter isMeaningful).length
        then spaceJoin ((pyWords query).filter isMeaningful)
        else query)
    ∧ optimize_search_query "AI" = "AI" := by
  constructor
  · intro query
    unfold optimize_search_query
    by_cases h1 : 8 < (pyWords query).length
    · by_cases h2 : 3 < ((pyWords query).filter isMeaningful).length <;> simp [h1, h2]
    · simp [h1]
  · decide

/-- Claim C1: every exit path of the wrapped search layer is a string and no
exception reaches the caller: `fallback_search` (a total function into
`String`) always returns either its Wikipedia-based message or its templated
suggestion message, and `RateLimitedSearchTool.run` (also total) always
returns either a cached value, a success value of the wrapped operation, a
`fallback_search` output, or the formatted unexpected-error string. -/
theorem claim_C1_every_exit_is_a_string :
    (∀ (wiki : WikiOutcome) (query : String),
      (∃ r, wiki = WikiOutcome.ok r ∧ fallback_search wiki query = wikiFallbackMsg r)
      ∨ fallback_search wiki query = rateLimitSuggestMsg query)
    ∧ (∀ (mr : Nat) (ib : ℚ) (uc : Bool) (md : ℚ) (runner : Nat → SearchOutcome)
        (wiki : WikiOutcome) (jitter : Nat → ℚ) (t0 t1 : ℚ) (query : String) (st : SearchState),
      (∃ v, cacheLookup st.cache query = some v
          ∧ (RateLimitedSearchTool.run mr ib uc md runner wiki jitter t0 t1 query st).result = v)
      ∨ (∃ v, cacheLookup st.cache (optimize_search_query query) = some v
          ∧ (RateLimitedSearchTool.run mr ib uc md runner wiki jitter t0 t1 query st).result = v)
      ∨ (∃ i v, runner i = SearchOutcome.ok v
          ∧ (RateLimitedSearchTool.run mr ib uc md runner wiki jitter t0 t1 query st).result = v)
      ∨ (RateLimitedSearchTool.run mr ib uc md runner wiki jitter t0 t1 query st).result
          = fallback_search wiki query
      ∨ (∃ m, (RateLimitedSearchTool.run mr ib uc md runner wiki jitter t0 t1 query st).result
          = "Unexpected search error: " ++ m)) := by
  constructor
  · intro wiki query
    rcases wiki with r | _
    · by_cases h : 100 < r.length
      · exact Or.inl ⟨r, rfl, by simp [fallback_search, h]⟩
      · exact Or.inr (by simp [fallback_search, h])
    · exact Or.inr rfl
  · intro mr ib uc md runner wiki jitter t0 t1 query st
    cases uc with
    | false =>
      rw [run_eq_uc_false mr ib md runner wiki jitter t0 t1 query st]
      rcases retryLoop_result_cases ib false runner wiki jitter query
          (optimize_search_query query) st.cache mr 0 with ⟨i, v, hi, hr⟩ | hr | ⟨m, hr⟩
      · exact Or.inr (Or.inr (Or.inl ⟨i, v, hi, hr⟩))
      · exact Or.inr (Or.inr (Or.inr (Or.inl hr)))
      · exact Or.inr (Or.inr (Or.inr (Or.inr ⟨m, hr⟩)))
    | true =>
      rcases h1 : cacheLookup st.cache query with _ | v
      · rcases h2 : cacheLookup st.cache (optimize_search_query query) with _ | v
        · rw [run_eq_of_cache_miss mr ib true md runner wiki jitter t0 t1 query st h1 h2]
          rcases retryLoop_result_cases ib true runner wiki jitter query
              (optimize_search_query query) st.cache mr 0 with ⟨i, v, hi, hr⟩ | hr | ⟨m, hr⟩
          · exact Or.inr (Or.inr (Or.inl ⟨i, v, hi, hr⟩))
          · exact Or.inr (Or.inr (Or.inr (Or.inl hr)))
          · exact Or.inr (Or.inr (Or.inr (Or.inr ⟨m, hr⟩)))
        · by_cases hne : optimize_search_query query = query
          · rw [hne, h1] at h2
            exact absurd h2 (by simp)
          · rw [run_opt_hit mr ib md runner wiki jitter t0 t1 query st v h1 hne h2]
            exact Or.inr (Or.inl ⟨v, rfl, rfl⟩)
      · rw [run_cache_hit mr ib md runner wiki jitter t0 t1 query st v h1]
        exact Or.inl ⟨v, rfl, rfl⟩

/-- Claim C9: for every dispatch that passes both cache checks, the shared
`_last_search_time` is unconditionally set to the `time.time()` value read
just before the retry loop (`t1`), whatever the wrapped operation, the
Wikipedia fallback and the jitter then do — a failed call consumes the rate
window exactly like a successful one. -/
theorem claim_C9_timestamp_unconditional (mr : Nat) (ib : ℚ) (uc : Bool) (md : ℚ)
    (runner : Nat → SearchOutcome) (wiki : WikiOutcome) (jitter : Nat → ℚ) (t0 t1 : ℚ)
    (query : String) (st : SearchState)
    (h1 : cacheLookup st.cache query = none)
    (h2 : cacheLookup st.cache (optimize_search_query query) = none) :
    (RateLimitedSearchTool.run mr ib uc md runner wiki jitter t0 t1 query st).last_search_time = t1 := by
  rw [run_eq_of_cache_miss mr ib uc md runner wiki jitter t0 t1 query st h1 h2]

/-- Witness for C9: a call whose wrapped operation fails with an unexpected
error still sets `_last_search_time` to `t1 = 2`. -/
theorem claim_C9_witness :
    cacheLookup ([] : List (String × String)) "q" = none
    ∧ cacheLookup ([] : List (String × String)) (optimize_search_query "q") = none
    ∧ (RateLimitedSearchTool.run 3 5 true 5 (fun _ => SearchOutcome.otherExc "boom")
        WikiOutcome.exc (fun _ => 2) 1 2 "q" ⟨[], 0⟩).last_search_time = 2 :=
  ⟨rfl, rfl,
    claim_C9_timestamp_unconditional 3 5 true 5 (fun _ => SearchOutcome.otherExc "boom")
      WikiOutcome.exc (fun _ => 2) 1 2 "q" ⟨[], 0⟩ rfl rfl⟩

/-- Claim C8: both rate gates wait exactly as specified: a never-set
timestamp (the initial value 0) means no wait; a set timestamp with
`elapsed = t0 - last < min_delay` means a sleep of exactly
`min_delay - elapsed`, so the call proceeds no earlier than
`last + min_delay`.  Stated for the search gate of
`RateLimitedSearchTool.run` and for the generic dispatch gate of
`RateLimitedAgentExecutor.invoke`. -/
theorem claim_C8_rate_gate :
    (∀ (mr : Nat) (ib : ℚ) (uc : Bool) (md : ℚ) (runner : Nat → SearchOutcome)
        (wiki : WikiOutcome) (jitter : Nat → ℚ) (t0 t1 : ℚ) (query : String) (st : SearchState),
      st.last_search_time = 0 →
      (RateLimitedSearchTool.run mr ib uc md runner wiki jitter t0 t1 query st).gate = none)
    ∧ (∀ (mr : Nat) (ib : ℚ) (uc : Bool) (md : ℚ) (runner : Nat → SearchOutcome)
        (wiki : WikiOutcome) (jitter : Nat → ℚ) (t0 t1 : ℚ) (query : String) (st : SearchState),
      cacheLookup st.cache query = none →
      0 < st.last_search_time →
      t0 - st.last_search_time < md →
      (RateLimitedSearchTool.run mr ib uc md runner wiki jitter t0 t1 query st).gate
          = some (md - (t0 - st.last_search_time))
        ∧ t0 + (md - (t0 - st.last_search_time)) = st.last_search_time + md)
    ∧ (∀ md t0 t1 : ℚ, (RateLimitedAgentExecutor.invoke md t0 t1 0).1 = none)
    ∧ (∀ md t0 t1 last : ℚ, 0 < last → t0 - last < md →
        (RateLimitedAgentExecutor.invoke md t0 t1 last).1 = some (md - (t0 - last))
        ∧ t0 + (md - (t0 - last)) = last + md) := by
  refine ⟨?_, ?_, ?_, ?_⟩
  · intro mr ib uc md runner wiki jitter t0 t1 query st hlast
    exact run_gate_never_set mr ib uc md runner wiki jitter t0 t1 query st hlast
  · intro mr ib uc md runner wiki jitter t0 t1 query st h1 hpos hlt
    refine ⟨run_gate_wait mr ib uc md runner wiki jitter t0 t1 query st h1 hpos hlt, by ring⟩
  · intro md t0 t1
    simp [RateLimitedAgentExecutor.invoke]
  · intro md t0 t1 last hpos hlt
    refine ⟨by simp [RateLimitedAgentExecutor.invoke, hpos, hlt], by ring⟩

/-- Witness for C8: concrete instances at the source's gate delays — the
5-second search gate (`_min_delay_between_searches`) and the 2-second
generic executor gate (`min_delay=2.0`). -/
theorem claim_C8_witness :
    (0 : ℚ) < 10 ∧ (12 : ℚ) - 10 < min_delay_between_searches
    ∧ (0 : ℚ) < 6 ∧ (7 : ℚ) - 6 < executor_min_delay
    ∧ (RateLimitedSearchTool.run 3 5 true min_delay_between_searches
        (fun _ => SearchOutcome.ok "r") WikiOutcome.exc (fun _ => 2) 12 13 "q" ⟨[], 0⟩).gate = none
    ∧ (RateLimitedSearchTool.run 3 5 true min_delay_between_searches
        (fun _ => SearchOutcome.ok "r") WikiOutcome.exc (fun _ => 2) 12 13 "q" ⟨[], 10⟩).gate
        = some (min_delay_between_searches - ((12 : ℚ) - 10))
    ∧ (RateLimitedAgentExecutor.invoke executor_min_delay 7 8 0).1 = none
    ∧ (RateLimitedAgentExecutor.invoke executor_min_delay 7 8 6).1
        = some (executor_min_delay - ((7 : ℚ) - 6)) :=
  ⟨by norm_num, by norm_num [min_delay_between_searches], by norm_num,
    by norm_num [executor_min_delay],
    claim_C8_rate_gate.1 3 5 true min_delay_between_searches
      (fun _ => SearchOutcome.ok "r") WikiOutcome.exc (fun _ => 2) 12 13 "q" ⟨[], 0⟩ rfl,
    (claim_C8_rate_gate.2.1 3 5 true min_delay_between_searches
      (fun _ => SearchOutcome.ok "r") WikiOutcome.exc (fun _ => 2) 12 13 "q" ⟨[], 10⟩ rfl
      (by norm_num) (by norm_num [min_delay_between_searches])).1,
    claim_C8_rate_gate.2.2.1 executor_min_delay 7 8,
    (claim_C8_rate_gate.2.2.2 executor_min_delay 7 8 6 (by norm_num)
      (by norm_num [executor_min_delay])).1⟩

/-- Claim C2: when the wrapped operation raises the rate-limit signature
(a `DuckDuckGoSearchException` whose message contains "Ratelimit") on every
attempt, a run with `max_retries = 3` that passes the cache checks invokes
the operation exactly 4 times, at attempt indices 0 through 3, and then
returns the output of `fallback_search` applied to the original query; no
exception reaches the caller. -/
theorem claim_C2_exhaustion (ib : ℚ) (uc : Bool) (md : ℚ)
    (runner : Nat → SearchOutcome) (wiki : WikiOutcome) (jitter : Nat → ℚ) (t0 t1 : ℚ)
    (query : String) (st : SearchState)
    (hrl : ∀ i, ∃ m, runner i = SearchOutcome.ddgExc m ∧ ratelimitIn m = true)
    (h1 : cacheLookup st.cache query = none)
    (h2 : cacheLookup st.cache (optimize_search_query query) = none) :
    (RateLimitedSearchTool.run 3 ib uc md runner wiki jitter t0 t1 query st).result
        = fallback_search wiki query
    ∧ (RateLimitedSearchTool.run 3 ib uc md runner wiki jitter t0 t1 query st).callIdxs = [0, 1, 2, 3]
    ∧ (RateLimitedSearchTool.run 3 ib uc md runner wiki jitter t0 t1 query st).callIdxs.length = 4
    ∧ (RateLimitedSearchTool.run 3 ib uc md runner wiki jitter t0 t1 query st).fallbackOn = some query := by
  rw [run_eq_of_cache_miss 3 ib uc md runner wiki jitter t0 t1 query st h1 h2]
  rw [retryLoop_all_ratelimit ib uc runner wiki jitter query (optimize_search_query query) st.cache hrl 3 0]
  refine ⟨rfl, rfl, rfl, rfl⟩

/-- Witness for C2: an operation that always raises
`DuckDuckGoSearchException("Ratelimit")`. -/
theorem claim_C2_witness :
    (∀ i : Nat, ∃ m, (fun _ : Nat => SearchOutcome.ddgExc "Ratelimit") i = SearchOutcome.ddgExc m
        ∧ ratelimitIn m = true)
    ∧ cacheLookup ([] : List (String × String)) "q" = none
    ∧ cacheLookup ([] : List (String × String)) (optimize_search_query "q") = none
    ∧ (RateLimitedSearchTool.run 3 5 true 5 (fun _ => SearchOutcome.ddgExc "Ratelimit")
        WikiOutcome.exc (fun _ => 2) 1 2 "q" ⟨[], 0⟩).result = fallback_search WikiOutcome.exc "q"
    ∧ (RateLimitedSearchTool.run 3 5 true 5 (fun _ => SearchOutcome.ddgExc "Ratelimit")
        WikiOutcome.exc (fun _ => 2) 1 2 "q" ⟨[], 0⟩).callIdxs = [0, 1, 2, 3] :=
  ⟨fun _ => ⟨"Ratelimit", rfl, by decide⟩, rfl, rfl,
    (claim_C2_exhaustion 5 true 5 (fun _ => SearchOutcome.ddgExc "Ratelimit")
      WikiOutcome.exc (fun _ => 2) 1 2 "q" ⟨[], 0⟩
      (fun _ => ⟨"Ratelimit", rfl, by decide⟩) rfl rfl).1,
    (claim_C2_exhaustion 5 true 5 (fun _ => SearchOutcome.ddgExc "Ratelimit")
      WikiOutcome.exc (fun _ => 2) 1 2 "q" ⟨[], 0⟩
      (fun _ => ⟨"Ratelimit", rfl, by decide⟩) rfl rfl).2.1⟩

/-- Claim C3: when the wrapped operation raises the rate-limit signature on
exactly its first `k` invocations and then succeeds, a run with
`max_retries ≥ k` that passes the cache checks returns the success value,
invokes the operation exactly `k + 1` times (attempt indices 0 through `k`),
and sleeps `initial_backoff * 3 ^ i + jitter i` before retry `i + 1`, where
`jitter i` models the draw of `random.uniform(1, 3)`. -/
theorem claim_C3_retry_then_success (mr k : Nat) (ib : ℚ) (uc : Bool) (md : ℚ)
    (runner : Nat → SearchOutcome) (wiki : WikiOutcome) (jitter : Nat → ℚ) (t0 t1 : ℚ)
    (query : String) (st : SearchState) (v : String)
    (hk : k ≤ mr)
    (hrl : ∀ j, j < k → ∃ m, runner j = SearchOutcome.ddgExc m ∧ ratelimitIn m = true)
    (hok : runner k = SearchOutcome.ok v)
    (h1 : cacheLookup st.cache query = none)
    (h2 : cacheLookup st.cache (optimize_search_query query) = none) :
    (RateLimitedSearchTool.run mr ib uc md runner wiki jitter t0 t1 query st).result = v
    ∧ (RateLimitedSearchTool.run mr ib uc md runner wiki jitter t0 t1 query st).callIdxs
        = List.range' 0 (k + 1)
    ∧ (RateLimitedSearchTool.run mr ib uc md runner wiki jitter t0 t1 query st).callIdxs.length
        = k + 1
    ∧ (RateLimitedSearchTool.run mr ib uc md runner wiki jitter t0 t1 query st).backoffs
        = (List.range' 0 k).map (fun i => ib * 3 ^ i + jitter i)
    ∧ (RateLimitedSearchTool.run mr ib uc md runner wiki jitter t0 t1 query st).succeeded = true := by
  rw [run_eq_of_cache_miss mr ib uc md runner wiki jitter t0 t1 query st h1 h2]
  rw [retryLoop_ratelimit_then_ok ib uc runner wiki jitter query (optimize_search_query query)
    st.cache v k 0 mr hk (by simpa using hrl) (by simpa using hok)]
  exact ⟨rfl, rfl, by simp, rfl, rfl⟩

/-- Witness for C3: an operation that raises the rate-limit signature on its
first two invocations and succeeds on the third, with `max_retries = 3` and
`initial_backoff = 5`. -/
theorem claim_C3_witness :
    (2 : Nat) ≤ 3
    ∧ (RateLimitedSearchTool.run 3 5 true 5
        (fun i => if i < 2 then SearchOutcome.ddgExc "202 Ratelimit" else SearchOutcome.ok "found")
        WikiOutcome.exc (fun _ => 2) 1 2 "q" ⟨[], 0⟩).result = "found"
    ∧ (RateLimitedSearchTool.run 3 5 true 5
        (fun i => if i < 2 then SearchOutcome.ddgExc "202 Ratelimit" else SearchOutcome.ok "found")
        WikiOutcome.exc (fun _ => 2) 1 2 "q" ⟨[], 0⟩).callIdxs = List.range' 0 (2 + 1)
    ∧ (RateLimitedSearchTool.run 3 5 true 5
        (fun i => if i < 2 then SearchOutcome.ddgExc "202 Ratelimit" else SearchOutcome.ok "found")
        WikiOutcome.exc (fun _ => 2) 1 2 "q" ⟨[], 0⟩).callIdxs.length = 2 + 1
    ∧ (RateLimitedSearchTool.run 3 5 true 5
        (fun i => if i < 2 then SearchOutcome.ddgExc "202 Ratelimit" else SearchOutcome.ok "found")
        WikiOutcome.exc (fun _ => 2) 1 2 "q" ⟨[], 0⟩).backoffs
        = (List.range' 0 2).map (fun i => 5 * 3 ^ i + (fun _ : Nat => (2 : ℚ)) i)
    ∧ (RateLimitedSearchTool.run 3 5 true 5
        (fun i => if i < 2 then SearchOutcome.ddgExc "202 Ratelimit" else SearchOutcome.ok "found")
        WikiOutcome.exc (fun _ => 2) 1 2 "q" ⟨[], 0⟩).succeeded = true := by
  have h := claim_C3_retry_then_success 3 2 5 true 5
    (fun i => if i < 2 then SearchOutcome.ddgExc "202 Ratelimit" else SearchOutcome.ok "found")
    WikiOutcome.exc (fun _ => 2) 1 2 "q" ⟨[], 0⟩ "found" (by decide)
    (fun j hj => ⟨"202 Ratelimit", by interval_cases j <;> decide, by decide⟩)
    (by decide) rfl rfl
  exact ⟨by decide, h.1, h.2.1, h.2.2.1, h.2.2.2.1, h.2.2.2.2⟩

/-- Counterexample to C4: a `DuckDuckGoSearchException` whose message does
not contain "Ratelimit" is not the rate-limit error signature, yet the
controller routes it to `fallback_search` rather than returning an
"Unexpected ... error: <message>" string (the returned message starts with
"🚫", not "U"). -/
theorem claim_C4_counterexample :
    ratelimitIn "http timeout" = false
    ∧ (RateLimitedSearchTool.run 3 5 true 5 (fun _ => SearchOutcome.ddgExc "http timeout")
        WikiOutcome.exc (fun _ => 2) 1 2 "q" ⟨[], 0⟩).result = fallback_search WikiOutcome.exc "q"
    ∧ startsWithU (RateLimitedSearchTool.run 3 5 true 5 (fun _ => SearchOutcome.ddgExc "http timeout")
        WikiOutcome.exc (fun _ => 2) 1 2 "q" ⟨[], 0⟩).result = false
    ∧ startsWithU "Unexpected search error: http timeout" = true
    ∧ (RateLimitedSearchTool.run 3 5 true 5 (fun _ => SearchOutcome.ddgExc "http timeout")
        WikiOutcome.exc (fun _ => 2) 1 2 "q" ⟨[], 0⟩).callIdxs = [0] := by
  decide

/-- Claim C4 as amended: an exception that is not a
`DuckDuckGoSearchException` is never retried and immediately yields the
formatted string `"Unexpected search error: <message>"`; a
`DuckDuckGoSearchException` whose message lacks "Ratelimit" is also never
retried but is routed to `fallback_search` instead.  In both cases no
exception reaches the caller. -/
theorem claim_C4_amended (mr : Nat) (ib : ℚ) (uc : Bool) (md : ℚ)
    (runner : Nat → SearchOutcome) (wiki : WikiOutcome) (jitter : Nat → ℚ) (t0 t1 : ℚ)
    (query : String) (st : SearchState)
    (h1 : cacheLookup st.cache query = none)
    (h2 : cacheLookup st.cache (optimize_search_query query) = none) :
    (∀ m, runner 0 = SearchOutcome.otherExc m →
      (RateLimitedSearchTool.run mr ib uc md runner wiki jitter t0 t1 query st).result
          = "Unexpected search error: " ++ m
      ∧ (RateLimitedSearchTool.run mr ib uc md runner wiki jitter t0 t1 query st).callIdxs = [0]
      ∧ (RateLimitedSearchTool.run mr ib uc md runner wiki jitter t0 t1 query st).backoffs = []
      ∧ (RateLimitedSearchTool.run mr ib uc md runner wiki jitter t0 t1 query st).fallbackOn = none)
    ∧ (∀ m, runner 0 = SearchOutcome.ddgExc m → ratelimitIn m = false →
      (RateLimitedSearchTool.run mr ib uc md runner wiki jitter t0 t1 query st).result
          = fallback_search wiki query
      ∧ (RateLimitedSearchTool.run mr ib uc md runner wiki jitter t0 t1 query st).callIdxs = [0]
      ∧ (RateLimitedSearchTool.run mr ib uc md runner wiki jitter t0 t1 query st).backoffs = []
      ∧ (RateLimitedSearchTool.run mr ib uc md runner wiki jitter t0 t1 query st).fallbackOn
          = some query) := by
  rw [run_eq_of_cache_miss mr ib uc md runner wiki jitter t0 t1 query st h1 h2]
  constructor
  · intro m hm
    rw [retryLoop_other ib uc runner wiki jitter query (optimize_search_query query) st.cache 0 mr m hm]
    exact ⟨rfl, rfl, rfl, rfl⟩
  · intro m hm hrl
    rw [retryLoop_ddg_norl ib uc runner wiki jitter query (optimize_search_query query) st.cache 0 mr m hm hrl]
    exact ⟨rfl, rfl, rfl, rfl⟩

/-- Witness for the amended C4: a `TypeError`-like exception yields the
formatted error string with no retry; a non-rate-limit
`DuckDuckGoSearchException` yields the fallback with no retry. -/
theorem claim_C4_witness :
    ((RateLimitedSearchTool.run 3 5 true 5 (fun _ => SearchOutcome.otherExc "boom")
        WikiOutcome.exc (fun _ => 2) 1 2 "q" ⟨[], 0⟩).result = "Unexpected search error: " ++ "boom"
      ∧ (RateLimitedSearchTool.run 3 5 true 5 (fun _ => SearchOutcome.otherExc "boom")
        WikiOutcome.exc (fun _ => 2) 1 2 "q" ⟨[], 0⟩).callIdxs = [0])
    ∧ ratelimitIn "http timeout" = false
    ∧ ((RateLimitedSearchTool.run 3 5 true 5 (fun _ => SearchOutcome.ddgExc "http timeout")
        WikiOutcome.exc (fun _ => 2) 1 2 "q" ⟨[], 0⟩).result = fallback_search WikiOutcome.exc "q"
      ∧ (RateLimitedSearchTool.run 3 5 true 5 (fun _ => SearchOutcome.ddgExc "http timeout")
        WikiOutcome.exc (fun _ => 2) 1 2 "q" ⟨[], 0⟩).callIdxs = [0]) :=
  ⟨⟨((claim_C4_amended 3 5 true 5 (fun _ => SearchOutcome.otherExc "boom")
      WikiOutcome.exc (fun _ => 2) 1 2 "q" ⟨[], 0⟩ rfl rfl).1 "boom" rfl).1,
    ((claim_C4_amended 3 5 true 5 (fun _ => SearchOutcome.otherExc "boom")
      WikiOutcome.exc (fun _ => 2) 1 2 "q" ⟨[], 0⟩ rfl rfl).1 "boom" rfl).2.1⟩,
    by decide,
    ⟨((claim_C4_amended 3 5 true 5 (fun _ => SearchOutcome.ddgExc "http timeout")
      WikiOutcome.exc (fun _ => 2) 1 2 "q" ⟨[], 0⟩ rfl rfl).2 "http timeout" rfl (by decide)).1,
    ((claim_C4_amended 3 5 true 5 (fun _ => SearchOutcome.ddgExc "http timeout")
      WikiOutcome.exc (fun _ => 2) 1 2 "q" ⟨[], 0⟩ rfl rfl).2 "http timeout" rfl (by decide)).2.1⟩⟩

/-- Counterexample to C5: a query submitted twice with caching enabled whose
first invocation fails (unexpected error, so nothing is cached) gets a
different result on the second invocation, which does perform an external
call (attempt index 0). -/
theorem claim_C5_counterexample :
    (RateLimitedSearchTool.run 3 5 true 5 (fun _ => SearchOutcome.ok "hello") WikiOutcome.exc
        (fun _ => 2) 20 21 "q"
        ⟨(RateLimitedSearchTool.run 3 5 true 5 (fun _ => SearchOutcome.otherExc "boom")
            WikiOutcome.exc (fun _ => 2) 1 2 "q" ⟨[], 0⟩).cache,
          (RateLimitedSearchTool.run 3 5 true 5 (fun _ => SearchOutcome.otherExc "boom")
            WikiOutcome.exc (fun _ => 2) 1 2 "q" ⟨[], 0⟩).last_search_time⟩).result
      ≠ (RateLimitedSearchTool.run 3 5 true 5 (fun _ => SearchOutcome.otherExc "boom")
          WikiOutcome.exc (fun _ => 2) 1 2 "q" ⟨[], 0⟩).result
    ∧ (RateLimitedSearchTool.run 3 5 true 5 (fun _ => SearchOutcome.ok "hello") WikiOutcome.exc
        (fun _ => 2) 20 21 "q"
        ⟨(RateLimitedSearchTool.run 3 5 true 5 (fun _ => SearchOutcome.otherExc "boom")
            WikiOutcome.exc (fun _ => 2) 1 2 "q" ⟨[], 0⟩).cache,
          (RateLimitedSearchTool.run 3 5 true 5 (fun _ => SearchOutcome.otherExc "boom")
            WikiOutcome.exc (fun _ => 2) 1 2 "q" ⟨[], 0⟩).last_search_time⟩).callIdxs = [0] := by
  constructor
  · decide
  · decide

/-- Claim C5 as amended: when the first invocation's primary external call
succeeds (so the result was cached), a second invocation of the same query
with caching enabled returns byte-identical output and performs no external
call, no gate wait, no backoff sleep and no fallback, whatever the external
world does in between. -/
theorem claim_C5_amended (mr : Nat) (ib md : ℚ)
    (runner1 : Nat → SearchOutcome) (wiki1 : WikiOutcome) (jitter1 : Nat → ℚ) (t0 t1 : ℚ)
    (runner2 : Nat → SearchOutcome) (wiki2 : WikiOutcome) (jitter2 : Nat → ℚ) (t2 t3 : ℚ)
    (query : String) (st : SearchState)
    (hs : (RateLimitedSearchTool.run mr ib true md runner1 wiki1 jitter1 t0 t1 query st).succeeded
        = true) :
    (RateLimitedSearchTool.run mr ib true md runner2 wiki2 jitter2 t2 t3 query
        ⟨(RateLimitedSearchTool.run mr ib true md runner1 wiki1 jitter1 t0 t1 query st).cache,
          (RateLimitedSearchTool.run mr ib true md runner1 wiki1 jitter1 t0 t1 query st).last_search_time⟩).result
      = (RateLimitedSearchTool.run mr ib true md runner1 wiki1 jitter1 t0 t1 query st).result
    ∧ (RateLimitedSearchTool.run mr ib true md runner2 wiki2 jitter2 t2 t3 query
        ⟨(RateLimitedSearchTool.run mr ib true md runner1 wiki1 jitter1 t0 t1 query st).cache,
          (RateLimitedSearchTool.run mr ib true md runner1 wiki1 jitter1 t0 t1 query st).last_search_time⟩).callIdxs = []
    ∧ (RateLimitedSearchTool.run mr ib true md runner2 wiki2 jitter2 t2 t3 query
        ⟨(RateLimitedSearchTool.run mr ib true md runner1 wiki1 jitter1 t0 t1 query st).cache,
          (RateLimitedSearchTool.run mr ib true md runner1 wiki1 jitter1 t0 t1 query st).last_search_time⟩).gate = none
    ∧ (RateLimitedSearchTool.run mr ib true md runner2 wiki2 jitter2 t2 t3 query
        ⟨(RateLimitedSearchTool.run mr ib true md runner1 wiki1 jitter1 t0 t1 query st).cache,
          (RateLimitedSearchTool.run mr ib true md runner1 wiki1 jitter1 t0 t1 query st).last_search_time⟩).backoffs = []
    ∧ (RateLimitedSearchTool.run mr ib true md runner2 wiki2 jitter2 t2 t3 query
        ⟨(RateLimitedSearchTool.run mr ib true md runner1 wiki1 jitter1 t0 t1 query st).cache,
          (RateLimitedSearchTool.run mr ib true md runner1 wiki1 jitter1 t0 t1 query st).last_search_time⟩).fallbackOn = none := by
  obtain ⟨hq, _⟩ := run_succeeded_lookup mr ib md runner1 wiki1 jitter1 t0 t1 query st hs
  rw [run_cache_hit mr ib md runner2 wiki2 jitter2 t2 t3 query
    ⟨(RateLimitedSearchTool.run mr ib true md runner1 wiki1 jitter1 t0 t1 query st).cache,
      (RateLimitedSearchTool.run mr ib true md runner1 wiki1 jitter1 t0 t1 query st).last_search_time⟩
    (RateLimitedSearchTool.run mr ib true md runner1 wiki1 jitter1 t0 t1 query st).result hq]
  exact ⟨rfl, rfl, rfl, rfl, rfl⟩

/-- Witness for the amended C5: a successful first call for "q" is replayed
from the cache on the second call even though the external runner would now
answer differently. -/
theorem claim_C5_witness :
    (RateLimitedSearchTool.run 3 5 true 5 (fun _ => SearchOutcome.ok "res") WikiOutcome.exc
        (fun _ => 2) 1 2 "q" ⟨[], 0⟩).succeeded = true
    ∧ (RateLimitedSearchTool.run 3 5 true 5 (fun _ => SearchOutcome.ok "changed") WikiOutcome.exc
        (fun _ => 2) 20 21 "q"
        ⟨(RateLimitedSearchTool.run 3 5 true 5 (fun _ => SearchOutcome.ok "res") WikiOutcome.exc
            (fun _ => 2) 1 2 "q" ⟨[], 0⟩).cache,
          (RateLimitedSearchTool.run 3 5 true 5 (fun _ => SearchOutcome.ok "res") WikiOutcome.exc
            (fun _ => 2) 1 2 "q" ⟨[], 0⟩).last_search_time⟩).result
      = (RateLimitedSearchTool.run 3 5 true 5 (fun _ => SearchOutcome.ok "res") WikiOutcome.exc
          (fun _ => 2) 1 2 "q" ⟨[], 0⟩).result
    ∧ (RateLimitedSearchTool.run 3 5 true 5 (fun _ => SearchOutcome.ok "changed") WikiOutcome.exc
        (fun _ => 2) 20 21 "q"
        ⟨(RateLimitedSearchTool.run 3 5 true 5 (fun _ => SearchOutcome.ok "res") WikiOutcome.exc
            (fun _ => 2) 1 2 "q" ⟨[], 0⟩).cache,
          (RateLimitedSearchTool.run 3 5 true 5 (fun _ => SearchOutcome.ok "res") WikiOutcome.exc
            (fun _ => 2) 1 2 "q" ⟨[], 0⟩).last_search_time⟩).callIdxs = [] :=
  ⟨by decide,
    (claim_C5_amended 3 5 5 (fun _ => SearchOutcome.ok "res") WikiOutcome.exc (fun _ => 2) 1 2
      (fun _ => SearchOutcome.ok "changed") WikiOutcome.exc (fun _ => 2) 20 21 "q" ⟨[], 0⟩
      (by decide)).1,
    (claim_C5_amended 3 5 5 (fun _ => SearchOutcome.ok "res") WikiOutcome.exc (fun _ => 2) 1 2
      (fun _ => SearchOutcome.ok "changed") WikiOutcome.exc (fun _ => 2) 20 21 "q" ⟨[], 0⟩
      (by decide)).2.1⟩

/-- Counterexample to C7: a 9-word query all of whose words are meaningful
satisfies the claim's hypotheses (word count over 8, at least 4 meaningful
words remain), yet `optimize_search_query` returns it unchanged, because
nothing is removed and the single-space join reproduces the input. -/
theorem claim_C7_counterexample :
    8 < (pyWords "alpha beta gamma delta epsilon zeta eta theta iota").length
    ∧ 3 < ((pyWords "alpha beta gamma delta epsilon zeta eta theta iota").filter isMeaningful).length
    ∧ optimize_search_query "alpha beta gamma delta epsilon zeta eta theta iota"
        = "alpha beta gamma delta epsilon zeta eta theta iota" := by
  decide

/-- Claim C7 as amended: for every query with more than 8 words reducing to
at least 4 meaningful words, `optimize_search_query` returns the meaningful
words joined by single spaces (which need not differ from the query); and on
every run whose primary call succeeds with caching enabled, the result is
cached both under the optimizer's output for the query and under the raw
query. -/
theorem claim_C7_amended :
    (∀ query : String, 8 < (pyWords query).length →
      3 < ((pyWords query).filter isMeaningful).length →
      optimize_search_query query = spaceJoin ((pyWords query).filter isMeaningful))
    ∧ (∀ (mr : Nat) (ib md : ℚ) (runner : Nat → SearchOutcome) (wiki : WikiOutcome)
        (jitter : Nat → ℚ) (t0 t1 : ℚ) (query : String) (st : SearchState),
      (RateLimitedSearchTool.run mr ib true md runner wiki jitter t0 t1 query st).succeeded = true →
      cacheLookup (RateLimitedSearchTool.run mr ib true md runner wiki jitter t0 t1 query st).cache
          (optimize_search_query query)
        = some (RateLimitedSearchTool.run mr ib true md runner wiki jitter t0 t1 query st).result
      ∧ cacheLookup (RateLimitedSearchTool.run mr ib true md runner wiki jitter t0 t1 query st).cache
          query
        = some (RateLimitedSearchTool.run mr ib true md runner wiki jitter t0 t1 query st).result) := by
  constructor
  · intro query hw hm
    unfold optimize_search_query
    simp [hw, hm]
  · intro mr ib md runner wiki jitter t0 t1 query st hs
    obtain ⟨hq, ho⟩ := run_succeeded_lookup mr ib md runner wiki jitter t0 t1 query st hs
    exact ⟨ho, hq⟩

/-- Witness for the amended C7: the spec's filler-heavy scenario (13 words,
4 meaningful ones) reduces to the meaningful words joined by spaces, and a
successful concrete run caches its result under both keys. -/
theorem claim_C7_witness :
    8 < (pyWords "the a an and or but in on at quantum computing hardware advances").length
    ∧ 3 < ((pyWords "the a an and or but in on at quantum computing hardware advances").filter isMeaningful).length
    ∧ optimize_search_query "the a an and or but in on at quantum computing hardware advances"
        = spaceJoin ((pyWords "the a an and or but in on at quantum computing hardware advances").filter isMeaningful)
    ∧ (RateLimitedSearchTool.run 3 5 true 5 (fun _ => SearchOutcome.ok "res") WikiOutcome.exc
        (fun _ => 2) 1 2 "q" ⟨[], 0⟩).succeeded = true
    ∧ cacheLookup (RateLimitedSearchTool.run 3 5 true 5 (fun _ => SearchOutcome.ok "res")
          WikiOutcome.exc (fun _ => 2) 1 2 "q" ⟨[], 0⟩).cache (optimize_search_query "q")
        = some (RateLimitedSearchTool.run 3 5 true 5 (fun _ => SearchOutcome.ok "res")
          WikiOutcome.exc (fun _ => 2) 1 2 "q" ⟨[], 0⟩).result :=
  ⟨by decide, by decide,
    claim_C7_amended.1 "the a an and or but in on at quantum computing hardware advances"
      (by decide) (by decide),
    by decide,
    (claim_C7_amended.2 3 5 5 (fun _ => SearchOutcome.ok "res") WikiOutcome.exc (fun _ => 2) 1 2
      "q" ⟨[], 0⟩ (by decide)).1⟩

theorem run_failed_cache_unchanged (mr : Nat) (ib : ℚ) (uc : Bool) (md : ℚ)
    (runner : Nat → SearchOutcome) (wiki : WikiOutcome) (jitter : Nat → ℚ) (t0 t1 : ℚ)
    (query : String) (st : SearchState)
    (hs : (RateLimitedSearchTool.run mr ib uc md runner wiki jitter t0 t1 query st).succeeded = false) :
    (RateLimitedSearchTool.run mr ib uc md runner wiki jitter t0 t1 query st).cache = st.cache := by
  cases uc with
  | false =>
    rw [run_eq_uc_false mr ib md runner wiki jitter t0 t1 query st] at hs ⊢
    exact (retryLoop_cache_spec ib false runner wiki jitter query
      (optimize_search_query query) st.cache mr 0).2.1 hs
  | true =>
    rcases h1 : cacheLookup st.cache query with _ | v
    · rcases h2 : cacheLookup st.cache (optimize_search_query query) with _ | v
      · rw [run_eq_of_cache_miss mr ib true md runner wiki jitter t0 t1 query st h1 h2] at hs ⊢
        exact (retryLoop_cache_spec ib true runner wiki jitter query
          (optimize_search_query query) st.cache mr 0).2.1 hs
      · by_cases hne : optimize_search_query query = query
        · rw [hne, h1] at h2
          exact absurd h2 (by simp)
        · rw [run_opt_hit mr ib md runner wiki jitter t0 t1 query st v h1 hne h2]
    · rw [run_cache_hit mr ib md runner wiki jitter t0 t1 query st v h1]

theorem run_fallback_not_succeeded (mr : Nat) (ib : ℚ) (uc : Bool) (md : ℚ)
    (runner : Nat → SearchOutcome) (wiki : WikiOutcome) (jitter : Nat → ℚ) (t0 t1 : ℚ)
    (query : String) (st : SearchState)
    (hf : (RateLimitedSearchTool.run mr ib uc md runner wiki jitter t0 t1 query st).fallbackOn ≠ none) :
    (RateLimitedSearchTool.run mr ib uc md runner wiki jitter t0 t1 query st).succeeded = false := by
  cases uc with
  | false =>
    rw [run_eq_uc_false mr ib md runner wiki jitter t0 t1 query st] at hf ⊢
    exact (retryLoop_cache_spec ib false runner wiki jitter query
      (optimize_search_query query) st.cache mr 0).2.2.1 hf
  | true =>
    rcases h1 : cacheLookup st.cache query with _ | v
    · rcases h2 : cacheLookup st.cache (optimize_search_query query) with _ | v
      · rw [run_eq_of_cache_miss mr ib true md runner wiki jitter t0 t1 query st h1 h2] at hf ⊢
        exact (retryLoop_cache_spec ib true runner wiki jitter query
          (optimize_search_query query) st.cache mr 0).2.2.1 hf
      · by_cases hne : optimize_search_query query = query
        · rw [hne, h1] at h2
          exact absurd h2 (by simp)
        · rw [run_opt_hit mr ib md runner wiki jitter t0 t1 query st v h1 hne h2]
    · rw [run_cache_hit mr ib md runner wiki jitter t0 t1 query st v h1]

/-- Claim C10: the search cache is written only on the success path of the
primary external call: a run that did not succeed (in particular every run
that went through `fallback_search`, which is never a success) leaves the
cache exactly as it was; consequently a query whose first invocation failed
re-attempts the external call (starting at attempt index 0) on its next
invocation. -/
theorem claim_C10_cache_written_only_on_success :
    (∀ (mr : Nat) (ib : ℚ) (uc : Bool) (md : ℚ) (runner : Nat → SearchOutcome)
        (wiki : WikiOutcome) (jitter : Nat → ℚ) (t0 t1 : ℚ) (query : String) (st : SearchState),
      ((RateLimitedSearchTool.run mr ib uc md runner wiki jitter t0 t1 query st).succeeded = false →
        (RateLimitedSearchTool.run mr ib uc md runner wiki jitter t0 t1 query st).cache = st.cache)
      ∧ ((RateLimitedSearchTool.run mr ib uc md runner wiki jitter t0 t1 query st).fallbackOn ≠ none →
        (RateLimitedSearchTool.run mr ib uc md runner wiki jitter t0 t1 query st).succeeded = false))
    ∧ (∀ (mr : Nat) (ib : ℚ) (uc : Bool) (md : ℚ) (runner : Nat → SearchOutcome)
        (wiki : WikiOutcome) (jitter : Nat → ℚ) (t0 t1 : ℚ) (query : String) (st : SearchState)
        (mr2 : Nat) (ib2 md2 : ℚ) (runner2 : Nat → SearchOutcome) (wiki2 : WikiOutcome)
        (jitter2 : Nat → ℚ) (t2 t3 : ℚ),
      cacheLookup st.cache query = none →
      cacheLookup st.cache (optimize_search_query query) = none →
      (RateLimitedSearchTool.run mr ib uc md runner wiki jitter t0 t1 query st).succeeded = false →
      (RateLimitedSearchTool.run mr2 ib2 uc md2 runner2 wiki2 jitter2 t2 t3 query
        ⟨(RateLimitedSearchTool.run mr ib uc md runner wiki jitter t0 t1 query st).cache,
          (RateLimitedSearchTool.run mr ib uc md runner wiki jitter t0 t1 query st).last_search_time⟩).callIdxs.head?
        = some 0) := by
  constructor
  · intro mr ib uc md runner wiki jitter t0 t1 query st
    exact ⟨run_failed_cache_unchanged mr ib uc md runner wiki jitter t0 t1 query st,
      run_fallback_not_succeeded mr ib uc md runner wiki jitter t0 t1 query st⟩
  · intro mr ib uc md runner wiki jitter t0 t1 query st mr2 ib2 md2 runner2 wiki2 jitter2 t2 t3 h1 h2 hs
    have hc := run_failed_cache_unchanged mr ib uc md runner wiki jitter t0 t1 query st hs
    have h1' : cacheLookup (RateLimitedSearchTool.run mr ib uc md runner wiki jitter t0 t1 query st).cache query = none := by
      rw [hc]; exact h1
    have h2' : cacheLookup (RateLimitedSearchTool.run mr ib uc md runner wiki jitter t0 t1 query st).cache (optimize_search_query query) = none := by
      rw [hc]; exact h2
    rw [run_eq_of_cache_miss mr2 ib2 uc md2 runner2 wiki2 jitter2 t2 t3 query
      ⟨(RateLimitedSearchTool.run mr ib uc md runner wiki jitter t0 t1 query st).cache,
        (RateLimitedSearchTool.run mr ib uc md runner wiki jitter t0 t1 query st).last_search_time⟩ h1' h2']
    exact (retryLoop_cache_spec ib2 uc runner2 wiki2 jitter2 query
      (optimize_search_query query)
      (RateLimitedSearchTool.run mr ib uc md runner wiki jitter t0 t1 query st).cache mr2 0).2.2.2

/-- Witness for C10: a failed first call (unexpected error) leaves the cache
empty and the next call for the same query re-attempts the external call; a
rate-limit-exhausted call went through the fallback and is not a success. -/
theorem claim_C10_witness :
    (RateLimitedSearchTool.run 3 5 true 5 (fun _ => SearchOutcome.otherExc "boom") WikiOutcome.exc
        (fun _ => 2) 1 2 "q" ⟨[], 0⟩).succeeded = false
    ∧ (RateLimitedSearchTool.run 3 5 true 5 (fun _ => SearchOutcome.otherExc "boom") WikiOutcome.exc
        (fun _ => 2) 1 2 "q" ⟨[], 0⟩).cache = ([] : List (String × String))
    ∧ (RateLimitedSearchTool.run 3 5 true 5 (fun _ => SearchOutcome.ddgExc "Ratelimit") WikiOutcome.exc
        (fun _ => 2) 1 2 "q" ⟨[], 0⟩).fallbackOn ≠ none
    ∧ (RateLimitedSearchTool.run 3 5 true 5 (fun _ => SearchOutcome.ddgExc "Ratelimit") WikiOutcome.exc
        (fun _ => 2) 1 2 "q" ⟨[], 0⟩).succeeded = false
    ∧ (RateLimitedSearchTool.run 4 6 true 5 (fun _ => SearchOutcome.ok "late") WikiOutcome.exc
        (fun _ => 3) 20 21 "q"
        ⟨(RateLimitedSearchTool.run 3 5 true 5 (fun _ => SearchOutcome.otherExc "boom") WikiOutcome.exc
            (fun _ => 2) 1 2 "q" ⟨[], 0⟩).cache,
          (RateLimitedSearchTool.run 3 5 true 5 (fun _ => SearchOutcome.otherExc "boom") WikiOutcome.exc
            (fun _ => 2) 1 2 "q" ⟨[], 0⟩).last_search_time⟩).callIdxs.head? = some 0 :=
  ⟨by decide,
    (claim_C10_cache_written_only_on_success.1 3 5 true 5
      (fun _ => SearchOutcome.otherExc "boom") WikiOutcome.exc (fun _ => 2) 1 2 "q" ⟨[], 0⟩).1
      (by decide),
    by decide,
    (claim_C10_cache_written_only_on_success.1 3 5 true 5
      (fun _ => SearchOutcome.ddgExc "Ratelimit") WikiOutcome.exc (fun _ => 2) 1 2 "q" ⟨[], 0⟩).2
      (by decide),
    claim_C10_cache_written_only_on_success.2 3 5 true 5
      (fun _ => SearchOutcome.otherExc "boom") WikiOutcome.exc (fun _ => 2) 1 2 "q" ⟨[], 0⟩
      4 6 5 (fun _ => SearchOutcome.ok "late") WikiOutcome.exc (fun _ => 3) 20 21
      rfl rfl (by decide)⟩
